import Mathlib

/-!
Verification of the last30days multi-source search orchestration engine.

Shallow embedding of the Python modules `scripts/lib/date_detect.py`,
`scripts/lib/mcp_client.py`, `scripts/lib/hybrid_search.py`,
`scripts/lib/claude_mcp.py`, `scripts/lib/openai_reddit.py`,
`scripts/lib/openrouter_reddit.py` and `scripts/lib/searxng.py`.
Machine wall-clock time (`datetime.now()`) is passed explicitly as a
`PyDateTime` value (a day ordinal plus seconds within the day); Python's
non-deterministic `hash()` is passed explicitly as a function parameter.
-/

namespace Last30

/-! ## Character and string utilities mirroring Python string/regex behaviour -/

/-- ASCII digit test, `\d` of the Python regexes (ASCII inputs). -/
def isDig (c : Char) : Bool := '0' ≤ c && c ≤ '9'

/-- Python regex `\s` (ASCII whitespace classes). -/
def isWsCh (c : Char) : Bool :=
  c = ' ' || c = '\t' || c = '\n' || c = '\r' || c.val = 11 || c.val = 12

/-- Python regex `\w` (ASCII word character). -/
def isWordCh (c : Char) : Bool :=
  ('a' ≤ c && c ≤ 'z') || ('A' ≤ c && c ≤ 'Z') || isDig c || c = '_'

/-- Numeric value of a digit list, `int()` on a digit-only string. -/
def digitsVal : List Char → Nat → Nat
  | [], acc => acc
  | c :: cs, acc => digitsVal cs (acc * 10 + (c.toNat - '0'.toNat))

/-- Python `str.strip()` restricted to ASCII whitespace. -/
def pyStrip (s : String) : String :=
  ⟨((s.data.dropWhile isWsCh).reverse.dropWhile isWsCh).reverse⟩

/-- Python `str.lower()` (ASCII case folding, as used on the inputs here). -/
def pyLower (s : String) : String := ⟨s.data.map Char.toLower⟩

/-- Prefix-at-some-suffix test used for substring containment. -/
def subAt (needle : List Char) : List Char → Bool
  | [] => needle = []
  | l@(_ :: rest) => needle.isPrefixOf l || subAt needle rest

/-- Substring containment, Python's `needle in hay`. -/
def pyContains (hay needle : String) : Bool := subAt needle.data hay.data

/-- Truthiness of `str or ...` chains: a string is truthy iff non-empty. -/
def pyOrS (a b : String) : String := if a = "" then b else a

/-- Truthiness of an optional string value (Python `if x:` on `None`/`str`). -/
def truthyOpt : Option String → Bool
  | none => false
  | some s => s ≠ ""

/-- Python `str.zfill(2)` on a short digit string. -/
def zfill2 (s : String) : String := if s.length < 2 then "0" ++ s else s

/-! ## Proleptic-Gregorian calendar arithmetic (CPython `datetime` ordinals) -/

/-- Day count from civil date (days since 1970-01-01), Euclidean divisions. -/
def daysFromCivil (y m d : Int) : Int :=
  let y' : Int := if m ≤ 2 then y - 1 else y
  let era : Int := Int.ediv y' 400
  let yoe : Int := y' - era * 400
  let doy : Int := Int.ediv (153 * (if m > 2 then m - 3 else m + 9) + 2) 5 + d - 1
  let doe : Int := yoe * 365 + Int.ediv yoe 4 - Int.ediv yoe 100 + doy
  era * 146097 + doe - 719468

/-- Civil date from day count (inverse of `daysFromCivil`). -/
def civilFromDays (z : Int) : Int × Int × Int :=
  let z' : Int := z + 719468
  let era : Int := Int.ediv z' 146097
  let doe : Int := z' - era * 146097
  let yoe : Int :=
    Int.ediv (doe - Int.ediv doe 1460 + Int.ediv doe 36524 - Int.ediv doe 146096) 365
  let y : Int := yoe + era * 400
  let doy : Int := doe - (365 * yoe + Int.ediv yoe 4 - Int.ediv yoe 100)
  let mp : Int := Int.ediv (5 * doy + 2) 153
  let d : Int := doy - Int.ediv (153 * mp + 2) 5 + 1
  let m : Int := if mp < 10 then mp + 3 else mp - 9
  (if m ≤ 2 then y + 1 else y, m, d)

/-- Leap-year rule shared by `datetime`. -/
def isLeap (y : Int) : Bool :=
  Int.emod y 4 = 0 && (Int.emod y 100 ≠ 0 || Int.emod y 400 = 0)

/-- Length of month `m` of year `y`. -/
def daysInMonth (y m : Int) : Int :=
  if m = 2 then (if isLeap y then 29 else 28)
  else if m = 4 || m = 6 || m = 9 || m = 11 then 30
  else 31

/-- A CPython `datetime` value: day ordinal (days since 1970-01-01) plus
seconds within the day.  `strptime` results have `secs = 0`; `datetime.now()`
carries the current time of day. -/
structure PyDateTime where
  day : Int
  secs : Nat
  deriving DecidableEq, Repr

/-- Comparison of `datetime` values (day, then time within the day). -/
def pdtLe (a b : PyDateTime) : Bool :=
  a.day < b.day || (a.day = b.day && a.secs ≤ b.secs)

/-! ## `datetime.strptime(s, "%Y-%m-%d")`

CPython's `%Y` matches exactly four digits, `%m` matches `1[0-2]|0[1-9]|[1-9]`,
`%d` matches `3[01]|[12]\d|0[1-9]|[1-9]`, the whole string must be consumed,
and the `datetime` constructor then rejects out-of-calendar days and year 0. -/

/-- Digit-run split of a list prefix of exactly `n` digits. -/
def takeNDigits (n : Nat) (l : List Char) : Option (List Char × List Char) :=
  let pre := l.take n
  if pre.length = n && pre.all isDig then some (pre, l.drop n) else none

/-- Month / day fields of `%m` and `%d`: one or two digits within bounds. -/
def fieldVal (lo hi : Nat) (pre : List Char) : Option Nat :=
  if pre.all isDig then
    let v := digitsVal pre 0
    if lo ≤ v && v ≤ hi then some v else none
  else none

/-- Splits `s` as `YYYY-field-field` with each field one or two digits,
trying two-digit fields first (regex alternation order; the numeric result
does not depend on the split chosen). -/
def splitYmd (l : List Char) : Option (Nat × Nat × Nat) :=
  match takeNDigits 4 l with
  | none => none
  | some (yd, r1) =>
    match r1 with
    | '-' :: r2 =>
      let tryMD : Nat → List Char → Option (Nat × Nat) := fun mlen r =>
        match fieldVal 1 12 (r.take mlen) with
        | none => none
        | some m =>
          match r.drop mlen with
          | '-' :: r3 =>
            let tryD : Nat → Option Nat := fun dlen =>
              if r3.length = dlen then fieldVal 1 31 (r3.take dlen) else none
            match tryD 2 with
            | some d => some (m, d)
            | none =>
              match tryD 1 with
              | some d => some (m, d)
              | none => none
          | _ => none
      match (if 2 ≤ r2.length then tryMD 2 r2 else none) with
      | some md => some (digitsVal yd 0, md)
      | none =>
        match tryMD 1 r2 with
        | some md => some (digitsVal yd 0, md)
        | none => none
    | _ => none

/-- `datetime.strptime(s, "%Y-%m-%d")`: `none` models a `ValueError`. -/
def parseYmd (s : String) : Option (Int × Int × Int) :=
  match splitYmd s.data with
  | none => none
  | some (y, m, d) =>
    if 1 ≤ y && (d : Int) ≤ daysInMonth y m then some (y, m, d) else none

/-- Date as a `datetime` at midnight. -/
def ymdToPdt (t : Int × Int × Int) : PyDateTime :=
  ⟨daysFromCivil t.1 t.2.1 t.2.2, 0⟩

/-! ## `date_detect.is_date_in_range` -/

/-- `is_date_in_range(date_str, from_date, to_date)` evaluated when the
current wall clock is `now`.  Empty or `'none'` candidates are included;
`'today'`/`'yesterday'` resolve to `now` (keeping the time of day); any
parse failure yields inclusion. -/
def is_date_in_range (now : PyDateTime) (dateStr fromDate toDate : String) : Bool :=
  if dateStr = "" || dateStr = "none" then true
  else
    let extracted : Option PyDateTime :=
      if dateStr = "today" then some now
      else if dateStr = "yesterday" then some ⟨now.day - 1, now.secs⟩
      else (parseYmd dateStr).map ymdToPdt
    match extracted, parseYmd fromDate, parseYmd toDate with
    | some e, some f, some t => pdtLe (ymdToPdt f) e && pdtLe e (ymdToPdt t)
    | _, _, _ => true

/-! ## `date_detect.extract_date_from_url`

The three patterns `/(\d{4})/(\d{2})/(\d{2})/`, `/(\d{4})-(\d{2})-(\d{2})/`
and `/(\d{4})(\d{2})(\d{2})` are tried in order, each searched left to
right over the URL; the groups are joined as `YYYY-MM-DD`. -/

/-- Matches `/dddd<sep>dd<sep>dd` at the head of `l`, returning the groups;
`trail` demands a trailing `/`. -/
def urlPatAt (sep : Option Char) (trail : Bool) (l : List Char) :
    Option (List Char × List Char × List Char) :=
  match l with
  | '/' :: rest =>
    match takeNDigits 4 rest with
    | none => none
    | some (y, r1) =>
      let r1' := match sep with
        | some c => (match r1 with | c' :: r => if c' = c then some r else none | [] => none)
        | none => some r1
      match r1' with
      | none => none
      | some r2 =>
        match takeNDigits 2 r2 with
        | none => none
        | some (m, r3) =>
          let r3' := match sep with
            | some c => (match r3 with | c' :: r => if c' = c then some r else none | [] => none)
            | none => some r3
          match r3' with
          | none => none
          | some r4 =>
            match takeNDigits 2 r4 with
            | none => none
            | some (d, r5) =>
              if trail then
                match r5 with
                | '/' :: _ => some (y, m, d)
                | _ => none
              else some (y, m, d)
  | _ => none

/-- Leftmost match of a head-matcher over all suffixes (`re.search`). -/
def scanFirst (m : List Char → Option α) : List Char → Option α
  | [] => m []
  | l@(_ :: rest) =>
    match m l with
    | some r => some r
    | none => scanFirst m rest

/-- Joins regex groups as `f"{year}-{month}-{day}"`. -/
def joinYmd (g : List Char × List Char × List Char) : String :=
  ⟨g.1⟩ ++ "-" ++ ⟨g.2.1⟩ ++ "-" ++ ⟨g.2.2⟩

/-- `extract_date_from_url(url)`. -/
def extract_date_from_url (url : String) : Option String :=
  match scanFirst (urlPatAt (some '/') true) url.data with
  | some g => some (joinYmd g)
  | none =>
    match scanFirst (urlPatAt (some '-') true) url.data with
    | some g => some (joinYmd g)
    | none =>
      match scanFirst (urlPatAt none false) url.data with
      | some g => some (joinYmd g)
      | none => none

/-! ## `date_detect.extract_date_from_text`

Sub-patterns in source order: word-bounded `today` and `yesterday`
(case-insensitive), digits-whitespace-day(s)-whitespace-ago, the long-form
day month-name year pattern (optional comma or period after the month), and
finally four digits, separator (dash or slash), two digits, separator, two
digits.  All searches run on the lowercased text
(the captured groups are digits, so lowercasing does not alter the output). -/

/-- Word-bounded occurrence of `word` somewhere in `l`; `prev` is the
character immediately before the current suffix. -/
def scanWordAux (word : List Char) : Option Char → List Char → Bool
  | _, [] => false
  | prev, l@(c :: rest) =>
    (word.isPrefixOf l
      && (match prev with | none => true | some p => !isWordCh p)
      && (match l.drop word.length with | [] => true | c' :: _ => !isWordCh c'))
    || scanWordAux word (some c) rest

/-- Word-bounded search of `word` (the `\bword\b` patterns). -/
def scanWord (word : String) (l : List Char) : Bool := scanWordAux word.data none l

/-- Head match of `(\d+)\s+days?\s+ago`: maximal digit run, whitespace,
`day` with optional `s`, whitespace, `ago`. -/
def daysAgoAt (l : List Char) : Option Nat :=
  let ds := l.takeWhile isDig
  if ds = [] then none
  else
    let r1 := l.dropWhile isDig
    let ws1 := r1.takeWhile isWsCh
    if ws1 = [] then none
    else
      let r2 := r1.dropWhile isWsCh
      if ['d', 'a', 'y'].isPrefixOf r2 then
        let r3 := r2.drop 3
        let r4 := match r3 with | 's' :: t => t | _ => r3
        let ws2 := r4.takeWhile isWsCh
        if ws2 = [] then none
        else if ['a', 'g', 'o'].isPrefixOf (r4.dropWhile isWsCh) then
          some (digitsVal ds 0)
        else none
      else none

/-- The fixed month-name table of `extract_date_from_text`. -/
def monthTable : List (List Char × String) :=
  [("january".data, "01"), ("february".data, "02"), ("march".data, "03"),
   ("april".data, "04"), ("may".data, "05"), ("june".data, "06"),
   ("july".data, "07"), ("august".data, "08"), ("september".data, "09"),
   ("october".data, "10"), ("november".data, "11"), ("december".data, "12")]

/-- First month name that is a prefix of `l` (the names are not prefixes of
one another, so this is the regex alternation). -/
def monthAt (l : List Char) : Option (Nat × String) :=
  match monthTable.find? (fun p => p.1.isPrefixOf l) with
  | some p => some (p.1.length, p.2)
  | none => none

/-- Continuation of the long-form pattern after the day digits:
`\s+ month [,\.]? \s+ \d{4}`, returning (month number, year digits). -/
def longFormTail (l : List Char) : Option (String × List Char) :=
  if l.takeWhile isWsCh = [] then none
  else
    let r1 := l.dropWhile isWsCh
    match monthAt r1 with
    | none => none
    | some (n, mon) =>
      let r2 := r1.drop n
      let r3 := match r2 with
        | ',' :: t => t
        | '.' :: t => t
        | _ => r2
      if r3.takeWhile isWsCh = [] then none
      else
        match takeNDigits 4 (r3.dropWhile isWsCh) with
        | some (yd, _) => some (mon, yd)
        | none => none

/-- Head match of the long-form pattern: `\d{1,2}` (two digits tried first,
backtracking to one) then `longFormTail`. -/
def longFormAt (l : List Char) : Option (List Char × String × List Char) :=
  match l with
  | d1 :: d2 :: rest =>
    if isDig d1 then
      if isDig d2 then
        match longFormTail rest with
        | some (mon, yd) => some ([d1, d2], mon, yd)
        | none =>
          match longFormTail (d2 :: rest) with
          | some (mon, yd) => some ([d1], mon, yd)
          | none => none
      else
        match longFormTail (d2 :: rest) with
        | some (mon, yd) => some ([d1], mon, yd)
        | none => none
    else none
  | _ => none

/-- Head match of the ISO-like pattern: four digits, a dash or slash, two
digits, a dash or slash, two digits. -/
def isoAt (l : List Char) : Option (List Char × List Char × List Char) :=
  match takeNDigits 4 l with
  | none => none
  | some (y, r1) =>
    match r1 with
    | c :: r2 =>
      if c = '-' || c = '/' then
        match takeNDigits 2 r2 with
        | none => none
        | some (m, r3) =>
          match r3 with
          | c' :: r4 =>
            if c' = '-' || c' = '/' then
              match takeNDigits 2 r4 with
              | none => none
              | some (d, _) => some (y, m, d)
            else none
          | [] => none
      else none
    | [] => none

/-- Formats `f"{year}-{month}-{day.zfill(2)}"` for the long-form pattern. -/
def fmtLongForm (g : List Char × String × List Char) : String :=
  ⟨g.2.2⟩ ++ "-" ++ g.2.1 ++ "-" ++ zfill2 ⟨g.1⟩

/-- `strftime('%Y-%m-%d')` of the day ordinal `z` (zero-padded fields). -/
def fmtOrdinal (z : Int) : String :=
  let c := civilFromDays z
  let pad : Nat → Int → String := fun w n =>
    let s := toString n.natAbs
    (String.mk (List.replicate (w - s.length) '0')) ++ s
  pad 4 c.1 ++ "-" ++ pad 2 c.2.1 ++ "-" ++ pad 2 c.2.2

/-- `extract_date_from_text(text)` with the current day ordinal `nowDay`.
`timedelta` overflow beyond `datetime.MINYEAR` is not modelled (the day
ordinals arising here stay within `datetime`'s range). -/
def extract_date_from_text (nowDay : Int) (text : String) : Option String :=
  if text = "" then none
  else
    let tl := text.data.map Char.toLower
    if scanWord "today" tl then some "today"
    else if scanWord "yesterday" tl then some "yesterday"
    else
      match scanFirst daysAgoAt tl with
      | some n => some (fmtOrdinal (nowDay - (n : Int)))
      | none =>
        match scanFirst longFormAt tl with
        | some g => some (fmtLongForm g)
        | none =>
          match scanFirst isoAt tl with
          | some g => some (joinYmd g)
          | none => none

/-- `extract_date_signals(url, snippet, title)`: URL first (`high`), then
snippet (`med`), then title (`low`), else `(None, 'none')`. -/
def extract_date_signals (nowDay : Int) (url snippet title : String) :
    Option String × String :=
  match extract_date_from_url url with
  | some d => (some d, "high")
  | none =>
    match extract_date_from_text nowDay snippet with
    | some d => (some d, "med")
    | none =>
      match extract_date_from_text nowDay title with
      | some d => (some d, "low")
      | none => (none, "none")

/-! ## `mcp_client.MCPSearXNGClient`

The JSON-RPC envelope is modelled by the keys the client inspects:
`method`, `result` and `error` (field `none` means the key is absent from
the parsed object; `id` is carried but never read by the client).  A line of
the inbound stream is blank, an unparseable fragment, or a parsed envelope,
and carries the wall-clock seconds its `readline` consumed.  Multi-line
reassembly (`json.loads` over the joined buffer) is a function parameter
`joinParse`. -/

/-- A parsed JSON value (payloads are opaque to the client). -/
inductive JVal where
  | jnull
  | jstr (s : String)
  | jnum (n : Int)
  deriving DecidableEq, Repr

/-- The `error` member of an envelope: `message` and `code` as read by
`error.get('message')` / `error.get('code')`. -/
structure JErr where
  message : Option String
  code : Option Int
  deriving DecidableEq, Repr

/-- A parsed JSON-RPC envelope, restricted to the keys the client reads. -/
structure JObj where
  methodF : Option JVal
  resultF : Option JVal
  errorF : Option JErr
  idF : Option Int
  deriving DecidableEq, Repr

/-- One inbound line after `line.strip()`. -/
inductive Line where
  | blank
  | bad (raw : String)
  | good (o : JObj)
  deriving DecidableEq, Repr

/-- The `RuntimeError`s `_send_request` can raise. -/
inductive MCPFailure where
  | timeoutExceeded
  | processExited (stderrText : String)
  | unexpectedEOF
  | mcpError (e : JErr)
  | invalidResponse
  deriving DecidableEq, Repr

/-- Subprocess state of a client (the fields `close()` interacts with). -/
structure ProcState where
  stdinClosed : Bool
  stdinCloseRaises : Bool
  exitsInGrace : Bool
  killed : Bool
  deriving DecidableEq, Repr

/-- Client state: spawn command, per-call timeout, monotone request id and
the optional subprocess. -/
structure ClientState where
  command : Option (List String)
  timeoutSecs : Nat
  request_id : Nat
  process : Option ProcState
  deriving DecidableEq, Repr

/-- The response-reading loop of `_send_request`.  `elapsed` is the
wall-clock time at the loop head, `buf` the list of unparsed fragments,
`procExit` is `some stderr` when a spawned subprocess has exited (the
`poll()` branch at EOF).  Notifications — envelopes with a `method` key and
no `result` key — are skipped; the first envelope with a `result` or
`error` key is accepted. -/
def readLoop (timeout : Nat) (joinParse : List String → Option JObj)
    (procExit : Option String) :
    Nat → List String → List (Nat × Line) → Except MCPFailure JObj
  | elapsed, _, [] =>
    if elapsed > timeout then .error .timeoutExceeded
    else
      match procExit with
      | some st => .error (.processExited st)
      | none => .error .unexpectedEOF
  | elapsed, buf, (dt, l) :: rest =>
    if elapsed > timeout then .error .timeoutExceeded
    else
      match l with
      | .blank => readLoop timeout joinParse procExit (elapsed + dt) buf rest
      | .good o =>
        if o.methodF.isSome && o.resultF.isNone then
          readLoop timeout joinParse procExit (elapsed + dt) buf rest
        else if o.resultF.isSome || o.errorF.isSome then .ok o
        else readLoop timeout joinParse procExit (elapsed + dt) buf rest
      | .bad s =>
        match joinParse (buf ++ [s]) with
        | some o =>
          if o.methodF.isSome && o.resultF.isNone then
            readLoop timeout joinParse procExit (elapsed + dt) [] rest
          else if o.resultF.isSome || o.errorF.isSome then .ok o
          else readLoop timeout joinParse procExit (elapsed + dt) (buf ++ [s]) rest
        | none => readLoop timeout joinParse procExit (elapsed + dt) (buf ++ [s]) rest

/-- `_send_request`: bumps the request id, runs the read loop from time 0
with an empty buffer, then surfaces a JSON-RPC `error` member as a failure
and otherwise returns the `result` member. -/
def send_request (st : ClientState) (joinParse : List String → Option JObj)
    (procExit : Option String) (stream : List (Nat × Line)) :
    ClientState × Except MCPFailure JVal :=
  ({st with request_id := st.request_id + 1},
    match readLoop st.timeoutSecs joinParse procExit 0 [] stream with
    | .error e => .error e
    | .ok o =>
      match o.errorF with
      | some e => .error (.mcpError e)
      | none =>
        match o.resultF with
        | some v => .ok v
        | none => .error .invalidResponse)

/-- `call_tool(tool_name, arguments)`: a thin wrapper over `_send_request`
with method `tools/call`; the outbound envelope does not influence the
inbound processing. -/
def call_tool (st : ClientState) (_toolName : String)
    (_arguments : List (String × JVal)) (joinParse : List String → Option JObj)
    (procExit : Option String) (stream : List (Nat × Line)) :
    ClientState × Except MCPFailure JVal :=
  send_request st joinParse procExit stream

/-- `self.process.stdin.close()`: may raise; the caller swallows every
exception. -/
def stdinCloseStep (p : ProcState) : Except String ProcState :=
  if p.stdinCloseRaises then .error "stdin close failed"
  else .ok {p with stdinClosed := true}

/-- `self.process.wait(timeout=5)`: raises `TimeoutExpired` iff the process
does not exit within the grace period. -/
def waitStep (p : ProcState) : Except String ProcState :=
  if p.exitsInGrace then .ok p else .error "TimeoutExpired"

/-- `self.process.kill()`. -/
def killStep (p : ProcState) : ProcState := {p with killed := true}

/-- `close()`: if a subprocess exists, close its stdin (ignoring errors),
wait for exit, force-kill on `TimeoutExpired`, then clear `self.process`.
The result is `Except` so that exception-freedom is a theorem, not a type. -/
def closeClient (st : ClientState) : Except String ClientState :=
  match st.process with
  | none => .ok st
  | some p =>
    let p1 := match stdinCloseStep p with
      | .ok q => q
      | .error _ => p
    match waitStep p1 with
    | .ok _ => .ok {st with process := none}
    | .error e =>
      if e = "TimeoutExpired" then
        let _ := killStep p1
        .ok {st with process := none}
      else .error e

/-! ## `claude_mcp` — environment detection and the placeholder wrapper -/

/-- The environment variables `claude_mcp.is_claude_environment` reads
(`none` models an unset variable). -/
structure PyEnv where
  claudeCodeVar : Option String
  claudeVar : Option String
  pathVar : Option String
  deriving DecidableEq, Repr

/-- A configuration dictionary (string keys and values, as produced by
`env.get_config`). -/
def Config := List (String × String)

/-- `config.get(key, "")`. -/
def cfgGet (cfg : Config) (key : String) : String :=
  match List.lookup key cfg with
  | some v => v
  | none => ""

/-- `is_claude_environment()`: truthy `CLAUDE_CODE` or `CLAUDE`, or the
substring `claude` in the lowercased `PATH`. -/
def is_claude_environment (env : PyEnv) : Bool :=
  if truthyOpt env.claudeCodeVar || truthyOpt env.claudeVar then true
  else if pyContains (pyLower (match env.pathVar with | some p => p | none => "")) "claude" then true
  else false

/-- `detect_mcp_tools()`: a fixed tool list in a Claude environment, else
empty. -/
def detect_mcp_tools (env : PyEnv) : List String :=
  if is_claude_environment env then
    ["mcp__searxng-enhanced__search_web",
     "mcp__searxng-enhanced__get_website",
     "mcp__searxng-enhanced__get_current_datetime"]
  else []

/-- `should_use_claude_mcp(config)`: the `USE_CLAUDE_MCP` preference
(`false` wins, `true` still requires the environment), else auto-detection. -/
def should_use_claude_mcp (cfg : Config) (env : PyEnv) : Bool :=
  let pref := pyLower (cfgGet cfg "USE_CLAUDE_MCP")
  if pref = "false" then false
  else if pref = "true" then is_claude_environment env
  else is_claude_environment env && (detect_mcp_tools env).length > 0

/-- The client `get_mcp_client` hands back: the Claude wrapper (with its
availability flag fixed at construction) or a local stdio client. -/
inductive MCPChoice where
  | wrapper (available : Bool)
  | localClient
  deriving DecidableEq, Repr

/-- `get_mcp_client(config)`. -/
def get_mcp_client (cfg : Config) (env : PyEnv) : MCPChoice :=
  if should_use_claude_mcp cfg env then
    .wrapper ((detect_mcp_tools env).length > 0)
  else .localClient

/-- `ClaudeMCPWrapper.search_web` unconditionally raises
`NotImplementedError`. -/
def wrapper_search_web (_query _category : String) (_engines : Option String)
    (_safesearch : Nat) (_timeRange : Option String) : Except String JVal :=
  .error "NotImplementedError: Claude MCP tools must be called directly from the skill orchestrator, not via Python wrapper."

/-! ## `hybrid_search` — per-category searches, date post-processing, fan-out -/

/-- A result-item dictionary as the hybrid layer sees it: the keys it reads
or writes, plus `extra` standing for all other key-value pairs (an `Option`
field is `none` when the key is absent). -/
structure WebItem where
  url : Option String
  title : Option String
  snippet : Option String
  content : Option String
  why_relevant : Option String
  date : Option String
  date_confidence : Option String
  extra : List (String × String)
  deriving DecidableEq, Repr

/-- `search_reddit_hybrid`: when Claude MCP should be used and the wrapper
reports itself available, return `([], "claude_mcp")`; on any other path
(including the exception handler) fall through to `([], "none")`. -/
def search_reddit_hybrid (_topic _fromDate _toDate : String) (cfg : Config)
    (_depth : String) (env : PyEnv) : List WebItem × String :=
  if should_use_claude_mcp cfg env then
    match get_mcp_client cfg env with
    | .wrapper available =>
      if available then ([], "claude_mcp") else ([], "none")
    | .localClient => ([], "none")
  else ([], "none")

/-- `search_x_hybrid` (same structure as the Reddit variant). -/
def search_x_hybrid (_topic _fromDate _toDate : String) (cfg : Config)
    (_depth : String) (env : PyEnv) : List WebItem × String :=
  if should_use_claude_mcp cfg env then
    match get_mcp_client cfg env with
    | .wrapper available =>
      if available then ([], "claude_mcp") else ([], "none")
    | .localClient => ([], "none")
  else ([], "none")

/-- `search_web_hybrid` (same structure as the Reddit variant). -/
def search_web_hybrid (_topic _fromDate _toDate : String) (cfg : Config)
    (_depth : String) (env : PyEnv) : List WebItem × String :=
  if should_use_claude_mcp cfg env then
    match get_mcp_client cfg env with
    | .wrapper available =>
      if available then ([], "claude_mcp") else ([], "none")
    | .localClient => ([], "none")
  else ([], "none")

/-- The in-place update `apply_date_detection` performs on one item dict:
`item["date"] = date_str; item["date_confidence"] = confidence`. -/
def detectItemUpdate (now : PyDateTime) (it : WebItem) : WebItem :=
  let url := match it.url with | some s => s | none => ""
  let title := match it.title with | some s => s | none => ""
  let snippet :=
    pyOrS (match it.snippet with | some s => s | none => "")
      (pyOrS (match it.content with | some s => s | none => "")
        (match it.why_relevant with | some s => s | none => ""))
  let sig := extract_date_signals now.day url snippet title
  {it with date := sig.1, date_confidence := some sig.2}

/-- The `continue` guard of `apply_date_detection`: skip iff `date_str` is
truthy and out of range. -/
def keepAfterDetect (now : PyDateTime) (fromDate toDate : String)
    (dateStr : Option String) : Bool :=
  match dateStr with
  | none => true
  | some s => if s = "" then true else is_date_in_range now s fromDate toDate

/-- `apply_date_detection(items, from_date, to_date, item_type)`: returns
the filtered list it builds and, since the loop mutates the dicts it was
handed, the post-call state of the input list. -/
def apply_date_detection (now : PyDateTime) (fromDate toDate : String)
    (_itemType : String) : List WebItem → List WebItem × List WebItem
  | [] => ([], [])
  | it :: rest =>
    let it' := detectItemUpdate now it
    let tail := apply_date_detection now fromDate toDate _itemType rest
    (if keepAfterDetect now fromDate toDate it'.date then it' :: tail.1 else tail.1,
      it' :: tail.2)

/-- The observable outcome of one category worker inside
`search_all_hybrid`: a value, an exception, or a pool timeout. -/
inductive WorkerOutcome where
  | ok (r : List WebItem × String)
  | raised (msg : String)
  | timedOut
  deriving DecidableEq, Repr

/-- The `try/except` around `future.result(timeout=30)`: every exception
(including the pool timeout) becomes `([], "error")`. -/
def collectCategory (o : WorkerOutcome) : List WebItem × String :=
  match o with
  | .ok r => r
  | .raised _ => ([], "error")
  | .timedOut => ([], "error")

/-- A worker outcome that did not produce a value. -/
def outcomeFailed (o : WorkerOutcome) : Prop :=
  o = .timedOut ∨ ∃ msg, o = .raised msg

/-- `search_all_hybrid`: submits the three category workers and collects
`results[source]` for `reddit`, `x`, `web` in insertion order, converting
each worker failure into `([], "error")` at that category alone. -/
def search_all_hybrid (oReddit oX oWeb : WorkerOutcome) :
    List (String × (List WebItem × String)) :=
  [("reddit", collectCategory oReddit),
   ("x", collectCategory oX),
   ("web", collectCategory oWeb)]

/-! ## Provider adapters: item cleanup and normalization

`searxng.parse_reddit_response` and the validation loops of
`openai_reddit.parse_reddit_response` / `openrouter_reddit.parse_reddit_response`
(the two LLM adapters share the loop verbatim).  The LLM adapters are
modelled from the decoded `items` array onward — the loop the cited lines
consist of; upstream JSON extraction from the raw HTTP body is the input
boundary.  Relevance scores are rationals (`float` inputs restricted to the
coercible values the claims quantify over). -/

/-- The item dict built by the SearXNG Reddit adapter and (without the
`date_confidence` key, which that adapter never writes) by the LLM Reddit
adapters; `date_confidence = none` models an absent key. -/
structure RedditItem where
  id : String
  title : String
  url : String
  subreddit : String
  date : Option String
  relevance : ℚ
  why_relevant : String
  date_confidence : Option String
  deriving DecidableEq, Repr

/-- One entry of a SearXNG `results` array (the keys the adapter reads). -/
structure SxResult where
  url : String
  publication_date : Option String
  publish_date : Option String
  content : String
  title : String
  score : Option ℚ
  deriving DecidableEq, Repr

/-- A SearXNG response envelope: `error` key presence and the `results`
array. -/
structure SxResponse where
  errorPresent : Bool
  results : List SxResult
  deriving DecidableEq, Repr

/-- The URL substrings excluded by the SearXNG Reddit adapter. -/
def excludedPatterns : List String :=
  ["business.reddit.com", "developers.reddit.com",
   "reddit.com/r/ads/", "reddit.com/r/redditsecurity/"]

/-- `extract_subreddit_from_url(url)`: first `/r/` followed by a non-empty
run of non-slash characters. -/
def subredditAt (l : List Char) : Option (List Char) :=
  match l with
  | '/' :: 'r' :: '/' :: rest =>
    let name := rest.takeWhile (fun c => c ≠ '/')
    if name = [] then none else some name
  | _ => none

/-- `extract_subreddit_from_url(url)` over a string. -/
def extract_subreddit_from_url (url : String) : String :=
  match scanFirst subredditAt url.data with
  | some name => ⟨name⟩
  | none => ""

/-- `_generate_id_from_url(url)` = `str(abs(hash(url)))`; Python's `hash`
is run-dependent, so it is a parameter. -/
def generate_id_from_url (pyHash : String → Int) (url : String) : String :=
  toString (pyHash url).natAbs

/-- `publication_date or publish_date`, collapsed to `none` when falsy. -/
def sxApiDate (r : SxResult) : Option String :=
  let v1 := match r.publication_date with | some s => s | none => ""
  if v1 ≠ "" then some v1
  else
    let v2 := match r.publish_date with | some s => s | none => ""
    if v2 ≠ "" then some v2 else none

/-- The date signal of one SearXNG result: the API-provided date (with
`high` confidence) when truthy, otherwise shared date detection. -/
def sxSignal (now : PyDateTime) (r : SxResult) : Option String × String :=
  match sxApiDate r with
  | some d => (some d, "high")
  | none => extract_date_signals now.day r.url r.content r.title

/-- The per-result body of the `searxng.parse_reddit_response` loop:
`none` when the result is skipped by one of the `continue` guards. -/
def sxCleanReddit (now : PyDateTime) (pyHash : String → Int)
    (fromDate toDate : String) (r : SxResult) : Option RedditItem :=
  if !pyContains r.url "reddit.com" then none
  else if excludedPatterns.any (fun p => pyContains r.url p) then none
  else if extract_subreddit_from_url r.url = "" then none
  else if truthyOpt (sxSignal now r).1
      && !is_date_in_range now ((sxSignal now r).1.getD "") fromDate toDate then none
  else
    some
      { id := generate_id_from_url pyHash r.url
        title := r.title
        url := r.url
        subreddit := extract_subreddit_from_url r.url
        date := (sxSignal now r).1
        relevance := match r.score with | some q => q | none => 0
        why_relevant := ⟨r.content.data.take 200⟩
        date_confidence := some (sxSignal now r).2 }

/-- `searxng.parse_reddit_response(response, from_date, to_date)`. -/
def sx_parse_reddit_response (now : PyDateTime) (pyHash : String → Int)
    (resp : SxResponse) (fromDate toDate : String) : List RedditItem :=
  if resp.errorPresent then []
  else resp.results.filterMap (sxCleanReddit now pyHash fromDate toDate)

/-- One decoded entry of the LLM adapters' `items` array: the keys the
cleanup loop reads (string fields already passed through `str()`;
`relevance = none` models an absent key, defaulting to `0.5`). -/
structure RawRedditItem where
  title : String
  url : String
  subreddit : String
  date : Option String
  why_relevant : String
  relevance : Option ℚ
  deriving DecidableEq, Repr

/-- An element of the decoded `items` array (non-dicts are skipped but
still consume an `enumerate` index). -/
inductive RawEntry where
  | notDict
  | entry (r : RawRedditItem)
  deriving DecidableEq, Repr

/-- Python `str.lstrip("r/")`: strips every leading `r` or `/`. -/
def lstripRSlash (s : String) : String :=
  ⟨s.data.dropWhile (fun c => c = 'r' || c = '/')⟩

/-- The anchored shape check `^\d{4}-\d{2}-\d{2}$` of the LLM adapters. -/
def isYmdShape (s : String) : Bool :=
  match s.data with
  | [a, b, c, d, '-', e, f, '-', g, h] =>
    isDig a && isDig b && isDig c && isDig d && isDig e && isDig f
      && isDig g && isDig h
  | _ => false

/-- Date validation of the LLM cleanup loop: a truthy date that fails the
shape check is replaced by `None`. -/
def validateLlmDate (d : Option String) : Option String :=
  match d with
  | none => none
  | some s => if s = "" then some s else if isYmdShape s then some s else none

/-- The clamp `min(1.0, max(0.0, float(item.get("relevance", 0.5))))`. -/
def clampRelevance (r : Option ℚ) : ℚ :=
  min 1 (max 0 (match r with | some q => q | none => (1 : ℚ) / 2))

/-- One iteration of the LLM cleanup loop at `enumerate` index `i`. -/
def llmCleanOne (i : Nat) (e : RawEntry) : Option RedditItem :=
  match e with
  | .notDict => none
  | .entry r =>
    if r.url = "" || !pyContains r.url "reddit.com" then none
    else
      some
        { id := "R" ++ toString (i + 1)
          title := pyStrip r.title
          url := r.url
          subreddit := lstripRSlash (pyStrip r.subreddit)
          date := validateLlmDate r.date
          relevance := clampRelevance r.relevance
          why_relevant := pyStrip r.why_relevant
          date_confidence := none }

/-- The validation loop shared by the LLM adapters, with the running
`enumerate` index. -/
def llmCleanLoop : Nat → List RawEntry → List RedditItem
  | _, [] => []
  | i, e :: rest =>
    match llmCleanOne i e with
    | some it => it :: llmCleanLoop (i + 1) rest
    | none => llmCleanLoop (i + 1) rest

/-- `openai_reddit.parse_reddit_response`, from the decoded `items` array. -/
def oa_parse_reddit_items (entries : List RawEntry) : List RedditItem :=
  llmCleanLoop 0 entries

/-- `openrouter_reddit.parse_reddit_response`, from the decoded `items`
array (the loop is verbatim identical to the OpenAI one). -/
def or_parse_reddit_items (entries : List RawEntry) : List RedditItem :=
  llmCleanLoop 0 entries

/-! ## Helper lemmas -/

/-- The clamp always lands in the unit interval. -/
lemma clampRelevance_bounds (r : Option ℚ) :
    0 ≤ clampRelevance r ∧ clampRelevance r ≤ 1 := by
  unfold clampRelevance
  exact ⟨le_min (by norm_num) (le_max_left 0 _), min_le_left 1 _⟩

/-- Shape of one produced LLM item: clamped relevance, no
`date_confidence` key. -/
lemma llmCleanOne_shape (i : Nat) (e : RawEntry) (it : RedditItem)
    (h : llmCleanOne i e = some it) :
    (0 ≤ it.relevance ∧ it.relevance ≤ 1) ∧ it.date_confidence = none := by
  cases e with
  | notDict => simp [llmCleanOne] at h
  | entry r =>
    unfold llmCleanOne at h
    by_cases hu : r.url = "" || !pyContains r.url "reddit.com"
    · simp [hu] at h
    · simp [hu] at h
      subst h
      exact ⟨clampRelevance_bounds r.relevance, rfl⟩

/-- Every item of the LLM cleanup loop has clamped relevance and no
`date_confidence` key. -/
lemma llmCleanLoop_shape :
    ∀ (i : Nat) (entries : List RawEntry) (it : RedditItem),
      it ∈ llmCleanLoop i entries →
        (0 ≤ it.relevance ∧ it.relevance ≤ 1) ∧ it.date_confidence = none := by
  intro i entries
  induction entries generalizing i with
  | nil => intro it h; simp [llmCleanLoop] at h
  | cons e rest ih =>
    intro it h
    unfold llmCleanLoop at h
    cases he : llmCleanOne i e with
    | none =>
      rw [he] at h
      exact ih (i + 1) it h
    | some it' =>
      rw [he] at h
      rcases List.mem_cons.mp h with h1 | h2
      · subst h1; exact llmCleanOne_shape i e it he
      · exact ih (i + 1) it h2

/-- Pairing of `extract_date_signals`: the date is absent exactly when the
confidence is `none`, and a present date carries `high`, `med` or `low`. -/
lemma extract_date_signals_pairing (nowDay : Int) (url snippet title : String) :
    ((extract_date_signals nowDay url snippet title).1 = none
      ↔ (extract_date_signals nowDay url snippet title).2 = "none")
    ∧ ((extract_date_signals nowDay url snippet title).1.isSome →
        (extract_date_signals nowDay url snippet title).2 = "high"
        ∨ (extract_date_signals nowDay url snippet title).2 = "med"
        ∨ (extract_date_signals nowDay url snippet title).2 = "low") := by
  unfold extract_date_signals
  cases hu : extract_date_from_url url with
  | some d => simp
  | none =>
    cases hs : extract_date_from_text nowDay snippet with
    | some d => simp
    | none =>
      cases ht : extract_date_from_text nowDay title with
      | some d => simp
      | none => simp

/-- Shape of one produced SearXNG Reddit item: the `date_confidence` key is
always written and pairs with the `date` field. -/
lemma sxCleanReddit_pairing (now : PyDateTime) (pyHash : String → Int)
    (fromDate toDate : String) (r : SxResult) (it : RedditItem)
    (h : sxCleanReddit now pyHash fromDate toDate r = some it) :
    (it.date_confidence = some "none" ↔ it.date = none) := by
  unfold sxCleanReddit at h
  split_ifs at h
  cases Option.some.inj h
  show some (sxSignal now r).2 = some "none" ↔ (sxSignal now r).1 = none
  unfold sxSignal
  cases ha : sxApiDate r with
  | some d => simp
  | none =>
    have hp := (extract_date_signals_pairing now.day r.url r.content r.title).1
    constructor
    · intro hcc
      exact hp.mpr (by simpa using hcc)
    · intro hdd
      simpa using hp.mp hdd

/-- Unfolding equation of `readLoop` at end of stream. -/
lemma readLoop_nil (t : Nat) (jp : List String → Option JObj)
    (pe : Option String) (elapsed : Nat) (buf : List String) :
    readLoop t jp pe elapsed buf []
      = (if elapsed > t then .error .timeoutExceeded
          else match pe with
            | some st => .error (.processExited st)
            | none => .error .unexpectedEOF) := rfl

/-- Unfolding equation of `readLoop` at a stream element. -/
lemma readLoop_cons (t : Nat) (jp : List String → Option JObj)
    (pe : Option String) (elapsed : Nat) (buf : List String) (dt : Nat)
    (l : Line) (rest : List (Nat × Line)) :
    readLoop t jp pe elapsed buf ((dt, l) :: rest)
      = (if elapsed > t then .error .timeoutExceeded
          else match l with
            | .blank => readLoop t jp pe (elapsed + dt) buf rest
            | .good o =>
              if o.methodF.isSome && o.resultF.isNone then
                readLoop t jp pe (elapsed + dt) buf rest
              else if o.resultF.isSome || o.errorF.isSome then .ok o
              else readLoop t jp pe (elapsed + dt) buf rest
            | .bad s =>
              match jp (buf ++ [s]) with
              | some o =>
                if o.methodF.isSome && o.resultF.isNone then
                  readLoop t jp pe (elapsed + dt) [] rest
                else if o.resultF.isSome || o.errorF.isSome then .ok o
                else readLoop t jp pe (elapsed + dt) (buf ++ [s]) rest
              | none => readLoop t jp pe (elapsed + dt) (buf ++ [s]) rest) := rfl

/-! ## Claim theorems -/

/-- C1: the protocol client skips any envelope with a `method` key and no
`result` key and keeps reading; in particular, on a stream consisting of a
notification line followed by a valid response line, `call_tool` returns
the response's `result` member. -/
theorem C1_notifications_discarded (st : ClientState)
    (joinParse : List String → Option JObj) (procExit : Option String)
    (dt1 dt2 : Nat) (notif resp : JObj) (rest : List (Nat × Line)) (v : JVal)
    (hm : notif.methodF.isSome) (hr : notif.resultF = none)
    (hv : resp.resultF = some v) (he : resp.errorF = none)
    (ht : dt1 ≤ st.timeoutSecs) :
    (call_tool st "search_web" [] joinParse procExit
        ((dt1, .good notif) :: (dt2, .good resp) :: rest)).2 = .ok v
    ∧ (∀ (elapsed : Nat) (buf : List String) (rest' : List (Nat × Line)),
        elapsed ≤ st.timeoutSecs →
          readLoop st.timeoutSecs joinParse procExit elapsed buf
              ((dt1, .good notif) :: rest')
            = readLoop st.timeoutSecs joinParse procExit (elapsed + dt1) buf rest') := by
  have skip : ∀ (elapsed : Nat) (buf : List String) (rest' : List (Nat × Line)),
      elapsed ≤ st.timeoutSecs →
        readLoop st.timeoutSecs joinParse procExit elapsed buf
            ((dt1, .good notif) :: rest')
          = readLoop st.timeoutSecs joinParse procExit (elapsed + dt1) buf rest' := by
    intro elapsed buf rest' hel
    rw [readLoop_cons, if_neg (by omega)]
    simp [hm, hr]
  refine ⟨?_, skip⟩
  unfold call_tool send_request
  rw [skip 0 [] _ (by omega), readLoop_cons, if_neg (by omega)]
  simp [hv, he]

/-- C1 witness: a concrete notification followed by a concrete response. -/
theorem C1_witness :
    (call_tool ⟨none, 120, 0, none⟩ "search_web" [] (fun _ => none) none
        [(1, .good ⟨some (.jstr "notifications/progress"), none, none, none⟩),
         (2, .good ⟨none, some (.jstr "answer"), none, some 1⟩)]).2
      = .ok (.jstr "answer") :=
  (C1_notifications_discarded ⟨none, 120, 0, none⟩ (fun _ => none) none 1 2
      ⟨some (.jstr "notifications/progress"), none, none, none⟩
      ⟨none, some (.jstr "answer"), none, some 1⟩ [] (.jstr "answer")
      (by decide) rfl rfl rfl (by decide)).1

/-- C2: the fan-out always produces an entry for each of the three
categories; a worker that raised or timed out yields `([], "error")` for
its own category only, and each category's entry depends only on its own
worker outcome. -/
theorem C2_fanout_isolation (oReddit oX oWeb : WorkerOutcome) :
    (search_all_hybrid oReddit oX oWeb).length = 3
    ∧ List.lookup "reddit" (search_all_hybrid oReddit oX oWeb)
        = some (collectCategory oReddit)
    ∧ List.lookup "x" (search_all_hybrid oReddit oX oWeb)
        = some (collectCategory oX)
    ∧ List.lookup "web" (search_all_hybrid oReddit oX oWeb)
        = some (collectCategory oWeb)
    ∧ (∀ o, outcomeFailed o → collectCategory o = ([], "error"))
    ∧ (∀ r, collectCategory (.ok r) = r) := by
  refine ⟨rfl, by rfl, by rfl, by rfl, ?_, fun r => rfl⟩
  intro o h
  rcases h with h | ⟨msg, h⟩ <;> subst h <;> rfl

/-- C2 witness: a raising Reddit worker and a timed-out web worker leave
the other category intact and are both reported as `([], "error")`. -/
theorem C2_witness :
    List.lookup "reddit"
        (search_all_hybrid (.raised "boom") (.ok ([], "claude_mcp")) .timedOut)
      = some ([], "error")
    ∧ List.lookup "x"
        (search_all_hybrid (.raised "boom") (.ok ([], "claude_mcp")) .timedOut)
      = some ([], "claude_mcp")
    ∧ List.lookup "web"
        (search_all_hybrid (.raised "boom") (.ok ([], "claude_mcp")) .timedOut)
      = some ([], "error") := by
  have h := C2_fanout_isolation (.raised "boom") (.ok ([], "claude_mcp")) .timedOut
  refine ⟨?_, ?_, ?_⟩
  · rw [h.2.1, h.2.2.2.2.1 _ (Or.inr ⟨"boom", rfl⟩)]
  · rw [h.2.2.1, h.2.2.2.2.2]
  · rw [h.2.2.2.1, h.2.2.2.2.1 _ (Or.inl rfl)]

/-- C3: evaluation of `is_date_in_range` at the failing input.  The
inclusive-range and fail-open clauses hold for literal `YYYY-MM-DD`
candidates, but a candidate `'today'` whose calendar date equals the `to`
bound is excluded whenever the wall clock is past midnight, because
`datetime.now()` carries the time of day while the parsed bounds sit at
midnight — contradicting the documented inclusive calendar semantics. -/
theorem C3_today_excluded_despite_inclusive_range :
    is_date_in_range ⟨daysFromCivil 2026 10 12, 43200⟩ "today"
        "2026-10-11" "2026-10-12" = false
    ∧ is_date_in_range ⟨daysFromCivil 2026 10 12, 0⟩ "today"
        "2026-10-11" "2026-10-12" = true
    ∧ is_date_in_range ⟨daysFromCivil 2026 10 12, 43200⟩ "yesterday"
        "2026-10-01" "2026-10-11" = false
    ∧ is_date_in_range ⟨daysFromCivil 2026 10 12, 43200⟩ "2026-01-01"
        "2026-01-01" "2026-01-30" = true
    ∧ is_date_in_range ⟨daysFromCivil 2026 10 12, 43200⟩ "2026-01-30"
        "2026-01-01" "2026-01-30" = true
    ∧ is_date_in_range ⟨daysFromCivil 2026 10 12, 43200⟩ "2025-12-31"
        "2026-01-01" "2026-01-30" = false
    ∧ is_date_in_range ⟨daysFromCivil 2026 10 12, 43200⟩ "2026-01-31"
        "2026-01-01" "2026-01-30" = false
    ∧ is_date_in_range ⟨daysFromCivil 2026 10 12, 43200⟩ "garbage"
        "2026-01-01" "2026-01-30" = true
    ∧ is_date_in_range ⟨daysFromCivil 2026 10 12, 43200⟩ ""
        "2026-01-01" "2026-01-30" = true
    ∧ is_date_in_range ⟨daysFromCivil 2026 10 12, 43200⟩ "none"
        "2026-01-01" "2026-01-30" = true := by
  decide

/-- C7: evaluation of `extract_date_from_text`.  The day-first long form
resolves through the month table with the day zero-padded, but the
month-first form `January 24, 2026` — promised by the claim and by the
code's own comment — matches no pattern and yields `None`. -/
theorem C7_month_first_long_form_not_matched :
    extract_date_from_text 20000 "January 24, 2026" = none
    ∧ extract_date_from_text 20000 "24 January 2026" = some "2026-01-24"
    ∧ extract_date_from_text 20000 "24 JANUARY. 2026" = some "2026-01-24"
    ∧ extract_date_from_text 20000 "seen 24 january, 2026 online" = some "2026-01-24"
    ∧ extract_date_from_text 20000 "5 March 2026" = some "2026-03-05" := by
  decide

/-- C6: extraction precedence — a URL-embedded date always wins with
confidence `high` regardless of the snippet and title; otherwise a snippet
date yields `med`, otherwise a title date yields `low`, otherwise
`(None, 'none')`. -/
theorem C6_extraction_precedence (nowDay : Int) (url snippet title : String) :
    (∀ d, extract_date_from_url url = some d →
      extract_date_signals nowDay url snippet title = (some d, "high"))
    ∧ (extract_date_from_url url = none →
        ∀ d, extract_date_from_text nowDay snippet = some d →
          extract_date_signals nowDay url snippet title = (some d, "med"))
    ∧ (extract_date_from_url url = none →
        extract_date_from_text nowDay snippet = none →
          ∀ d, extract_date_from_text nowDay title = some d →
            extract_date_signals nowDay url snippet title = (some d, "low"))
    ∧ (extract_date_from_url url = none →
        extract_date_from_text nowDay snippet = none →
          extract_date_from_text nowDay title = none →
            extract_date_signals nowDay url snippet title = (none, "none")) := by
  refine ⟨?_, ?_, ?_, ?_⟩
  · intro d hu
    unfold extract_date_signals
    rw [hu]
  · intro hu d hs
    unfold extract_date_signals
    rw [hu, hs]
  · intro hu hs d ht
    unfold extract_date_signals
    rw [hu, hs, ht]
  · intro hu hs ht
    unfold extract_date_signals
    rw [hu, hs, ht]

/-- C6 witness: a URL date beats a conflicting snippet date. -/
theorem C6_witness :
    extract_date_signals 20000 "https://ex.com/2026/01/24/post" "2025-12-31" ""
      = (some "2026-01-24", "high") :=
  (C6_extraction_precedence 20000 "https://ex.com/2026/01/24/post"
      "2025-12-31" "").1 "2026-01-24" (by decide)

/-- C8: `close()` never fails from any client state, clears the `process`
field, and calling it again on the resulting state is an equally harmless
no-op. -/
theorem C8_close_idempotent_never_raises (st : ClientState) :
    closeClient st = .ok {st with process := none}
    ∧ closeClient {st with process := none} = .ok {st with process := none} := by
  have key : ∀ s : ClientState, closeClient s = .ok {s with process := none} := by
    intro s
    obtain ⟨cmd, t, rid, proc⟩ := s
    cases proc with
    | none => rfl
    | some p =>
      unfold closeClient
      simp only [stdinCloseStep, waitStep]
      by_cases h1 : p.stdinCloseRaises <;>
        by_cases h2 : p.exitsInGrace <;>
          simp [h1, h2]
  exact ⟨key st, by rw [key]⟩

/-- C8 witness: closing a client whose subprocess is alive with a failing
stdin close and no graceful exit. -/
theorem C8_witness :
    closeClient ⟨some ["docker", "run"], 120, 3, some ⟨false, true, false, false⟩⟩
      = .ok ⟨some ["docker", "run"], 120, 3, none⟩ :=
  (C8_close_idempotent_never_raises
      ⟨some ["docker", "run"], 120, 3, some ⟨false, true, false, false⟩⟩).1

/-- C10: the three hybrid category searches always return normally with an
empty item list; the tag is `claude_mcp` exactly when Claude MCP should be
used and the wrapper reports itself available, and `none` otherwise —
and the wrapper's `search_web` itself never succeeds. -/
theorem C10_hybrid_searches_return_no_items (topic fromDate toDate depth : String)
    (cfg : Config) (env : PyEnv) :
    search_reddit_hybrid topic fromDate toDate cfg depth env
      = (([] : List WebItem),
          if should_use_claude_mcp cfg env && (detect_mcp_tools env).length > 0
          then "claude_mcp" else "none")
    ∧ search_x_hybrid topic fromDate toDate cfg depth env
      = (([] : List WebItem),
          if should_use_claude_mcp cfg env && (detect_mcp_tools env).length > 0
          then "claude_mcp" else "none")
    ∧ search_web_hybrid topic fromDate toDate cfg depth env
      = (([] : List WebItem),
          if should_use_claude_mcp cfg env && (detect_mcp_tools env).length > 0
          then "claude_mcp" else "none")
    ∧ (∀ (q c : String) (e : Option String) (s : Nat) (tr : Option String),
        (wrapper_search_web q c e s tr).isOk = false) := by
  refine ⟨?_, ?_, ?_, fun q c e s tr => rfl⟩ <;>
    · simp only [search_reddit_hybrid, search_x_hybrid, search_web_hybrid,
        get_mcp_client]
      by_cases h1 : should_use_claude_mcp cfg env <;>
        by_cases h2 : (detect_mcp_tools env).length > 0 <;>
          simp [h1, h2]

/-- C10 witness: a concrete Claude environment with MCP preferred and a
concrete environment without it. -/
theorem C10_witness :
    search_reddit_hybrid "topic" "2026-01-01" "2026-01-30" []
        "default" ⟨some "1", none, none⟩
      = (([] : List WebItem), "claude_mcp")
    ∧ search_web_hybrid "topic" "2026-01-01" "2026-01-30" []
        "default" ⟨none, none, some "/usr/bin"⟩
      = (([] : List WebItem), "none") := by
  constructor
  · have h := (C10_hybrid_searches_return_no_items "topic" "2026-01-01"
      "2026-01-30" "default" [] ⟨some "1", none, none⟩).1
    rw [h]
    decide
  · have h := (C10_hybrid_searches_return_no_items "topic" "2026-01-01"
      "2026-01-30" "default" [] ⟨none, none, some "/usr/bin"⟩).2.2.1
    rw [h]
    decide

/-- C4 counterexample: the SearXNG Reddit adapter copies the provider
`score` through without clamping, so a score of `3` yields an item whose
relevance lies outside `[0, 1]`. -/
theorem C4_counterexample :
    (sx_parse_reddit_response ⟨daysFromCivil 2026 1 20, 0⟩ (fun _ => 12345)
        ⟨false, [⟨"https://www.reddit.com/r/test/comments/abc", none, none,
          "", "", some 3⟩]⟩
        "2026-01-01" "2026-01-30").map RedditItem.relevance = [(3 : ℚ)]
    ∧ ¬((3 : ℚ) ≤ 1) := by
  constructor
  · rfl
  · norm_num

/-- C4 amended: the OpenAI and OpenRouter Reddit adapters clamp every
(coercible) relevance input into `[0, 1]`; the SearXNG adapter does not
clamp, so the guarantee holds for the LLM adapters only. -/
theorem C4_llm_adapters_clamp (entries : List RawEntry) :
    (∀ it ∈ oa_parse_reddit_items entries,
      0 ≤ it.relevance ∧ it.relevance ≤ 1)
    ∧ (∀ it ∈ or_parse_reddit_items entries,
        0 ≤ it.relevance ∧ it.relevance ≤ 1) :=
  ⟨fun it h => (llmCleanLoop_shape 0 entries it h).1,
   fun it h => (llmCleanLoop_shape 0 entries it h).1⟩

/-- C4 witness: an out-of-range model score of `7` still lands in the unit
interval after the clamp. -/
theorem C4_witness :
    0 ≤ clampRelevance (some 7) ∧ clampRelevance (some 7) ≤ 1 :=
  (C4_llm_adapters_clamp
      [.entry ⟨"T", "https://reddit.com/r/a/b", "a", none, "", some 7⟩]).1
    ⟨"R1", "T", "https://reddit.com/r/a/b", "a", none,
      clampRelevance (some 7), "", none⟩
    (by
      rw [show oa_parse_reddit_items
          [.entry ⟨"T", "https://reddit.com/r/a/b", "a", none, "", some 7⟩]
          = [⟨"R1", "T", "https://reddit.com/r/a/b", "a", none,
              clampRelevance (some 7), "", none⟩] from rfl]
      exact List.mem_singleton.mpr rfl)

/-- C5 counterexample: an item built by the OpenAI Reddit adapter from a
raw entry without a date has `date = None` but carries no
`date_confidence` key at all, so `date_confidence == "none"` iff `date`
absent fails on it. -/
theorem C5_counterexample :
    (oa_parse_reddit_items
        [.entry ⟨"T", "https://www.reddit.com/r/test/comments/abc", "test",
          none, "", none⟩]).map (fun it => (it.date, it.date_confidence))
      = [((none : Option String), (none : Option String))]
    ∧ ¬((none : Option String) = some "none" ↔ (none : Option String) = none) := by
  constructor
  · decide
  · decide

/-- C5 amended: the extraction layer pairs an absent date with confidence
`none` and a present date with `high`, `med` or `low`; the SearXNG Reddit
adapter preserves the pairing on every item it builds; the OpenAI and
OpenRouter Reddit adapters write no `date_confidence` key at all. -/
theorem C5_confidence_pairing (nowDay : Int) (url snippet title : String)
    (now : PyDateTime) (pyHash : String → Int) (resp : SxResponse)
    (fromDate toDate : String) (entries : List RawEntry) :
    ((extract_date_signals nowDay url snippet title).1 = none
      ↔ (extract_date_signals nowDay url snippet title).2 = "none")
    ∧ ((extract_date_signals nowDay url snippet title).1.isSome →
        (extract_date_signals nowDay url snippet title).2 = "high"
        ∨ (extract_date_signals nowDay url snippet title).2 = "med"
        ∨ (extract_date_signals nowDay url snippet title).2 = "low")
    ∧ (∀ it ∈ sx_parse_reddit_response now pyHash resp fromDate toDate,
        (it.date_confidence = some "none" ↔ it.date = none))
    ∧ (∀ it ∈ oa_parse_reddit_items entries, it.date_confidence = none)
    ∧ (∀ it ∈ or_parse_reddit_items entries, it.date_confidence = none) := by
  refine ⟨(extract_date_signals_pairing nowDay url snippet title).1,
    (extract_date_signals_pairing nowDay url snippet title).2, ?_,
    fun it h => (llmCleanLoop_shape 0 entries it h).2,
    fun it h => (llmCleanLoop_shape 0 entries it h).2⟩
  intro it h
  unfold sx_parse_reddit_response at h
  by_cases he : resp.errorPresent
  · simp [he] at h
  · simp only [he, if_neg, Bool.false_eq_true, ite_false] at h
    obtain ⟨r, _, hr⟩ := List.mem_filterMap.mp h
    exact sxCleanReddit_pairing now pyHash fromDate toDate r it hr

/-- C5 witness: a SearXNG item built from an API-provided date satisfies
the pairing. -/
theorem C5_witness :
    ((RedditItem.mk "99" "A title" "https://reddit.com/r/abc/x" "abc"
        (some "2026-01-15") 0 "body text" (some "high")).date_confidence
      = some "none")
    ↔ ((RedditItem.mk "99" "A title" "https://reddit.com/r/abc/x" "abc"
        (some "2026-01-15") 0 "body text" (some "high")).date = none) :=
  (C5_confidence_pairing 0 "" "" "" ⟨daysFromCivil 2026 1 20, 0⟩ (fun _ => 99)
      ⟨false, [⟨"https://reddit.com/r/abc/x", some "2026-01-15", none,
        "body text", "A title", none⟩]⟩
      "2026-01-01" "2026-01-30" []).2.2.1
    (RedditItem.mk "99" "A title" "https://reddit.com/r/abc/x" "abc"
      (some "2026-01-15") 0 "body text" (some "high"))
    (by
      rw [show sx_parse_reddit_response ⟨daysFromCivil 2026 1 20, 0⟩ (fun _ => 99)
          ⟨false, [⟨"https://reddit.com/r/abc/x", some "2026-01-15", none,
            "body text", "A title", none⟩]⟩
          "2026-01-01" "2026-01-30"
          = [RedditItem.mk "99" "A title" "https://reddit.com/r/abc/x" "abc"
              (some "2026-01-15") 0 "body text" (some "high")] from rfl]
      exact List.mem_singleton.mpr rfl)

/-- C9 counterexample: `apply_date_detection` mutates the item dicts it is
handed — an item arriving with `date = "2020-05-05"` has its `date` field
overwritten with the (empty) detection result, so the input list is not
left intact. -/
theorem C9_counterexample :
    ((apply_date_detection ⟨daysFromCivil 2026 1 20, 0⟩ "2026-01-01"
        "2026-01-30" "web"
        [⟨some "https://example.com/x", some "hello", none, none, none,
          some "2020-05-05", some "high", [("id", "W1")]⟩]).2.map WebItem.date
      = [none])
    ∧ (apply_date_detection ⟨daysFromCivil 2026 1 20, 0⟩ "2026-01-01"
        "2026-01-30" "web"
        [⟨some "https://example.com/x", some "hello", none, none, none,
          some "2020-05-05", some "high", [("id", "W1")]⟩]).2
      ≠ [⟨some "https://example.com/x", some "hello", none, none, none,
          some "2020-05-05", some "high", [("id", "W1")]⟩] := by
  constructor
  · decide
  · decide

/-- C9 amended: `apply_date_detection` overwrites the `date` and
`date_confidence` fields of every item it is given (the post-call input
state is exactly the per-item update applied pointwise), its returned list
is the filter of those updated items, and no field other than `date` and
`date_confidence` is ever modified. -/
theorem C9_mutation_characterized (now : PyDateTime)
    (fromDate toDate itemType : String) (items : List WebItem) :
    (apply_date_detection now fromDate toDate itemType items).2
      = items.map (detectItemUpdate now)
    ∧ (apply_date_detection now fromDate toDate itemType items).1
      = (items.map (detectItemUpdate now)).filter
          (fun it => keepAfterDetect now fromDate toDate it.date)
    ∧ (∀ it : WebItem,
        (detectItemUpdate now it).url = it.url
        ∧ (detectItemUpdate now it).title = it.title
        ∧ (detectItemUpdate now it).snippet = it.snippet
        ∧ (detectItemUpdate now it).content = it.content
        ∧ (detectItemUpdate now it).why_relevant = it.why_relevant
        ∧ (detectItemUpdate now it).extra = it.extra) := by
  refine ⟨?_, ?_, fun it => ⟨rfl, rfl, rfl, rfl, rfl, rfl⟩⟩
  · induction items with
    | nil => rfl
    | cons it rest ih =>
      simp only [apply_date_detection, List.map_cons]
      rw [ih]
  · induction items with
    | nil => rfl
    | cons it rest ih =>
      simp only [apply_date_detection, List.map_cons, List.filter_cons]
      by_cases hk : keepAfterDetect now fromDate toDate (detectItemUpdate now it).date
      · simp [hk, ih]
      · simp [hk, ih]

/-- C9 witness: the mutation characterization at a concrete item. -/
theorem C9_witness :
    (apply_date_detection ⟨daysFromCivil 2026 1 20, 0⟩ "2026-01-01"
        "2026-01-30" "web"
        [⟨some "https://ex.com/2026-01-15/a", none, some "s", none, none,
          none, none, []⟩]).2
      = [detectItemUpdate ⟨daysFromCivil 2026 1 20, 0⟩
          ⟨some "https://ex.com/2026-01-15/a", none, some "s", none, none,
            none, none, []⟩] := by
  have h := (C9_mutation_characterized ⟨daysFromCivil 2026 1 20, 0⟩
    "2026-01-01" "2026-01-30" "web"
    [⟨some "https://ex.com/2026-01-15/a", none, some "s", none, none,
      none, none, []⟩]).1
  rw [h]
  rfl

end Last30
